import Mathlib

set_option maxRecDepth 100000
set_option maxHeartbeats 1600000

/-!
Shallow embedding of the showroom reservation worker (`src/index.ts`):
the slot rule engine, the `/api/times`, `/api/reserve`, `/api/cancel`
handlers, the admin-email HTML and ICS construction, and the reminder
scheduler.  The store is modelled as a list of `Reservation` rows; store
and provider outcomes that the code only observes through exceptions are
modelled as explicit `Option String` results (`none` = success, `some msg`
= failure with message `msg`).  Instants are modelled as minutes on a
proleptic-Gregorian day count (the runtime's local timezone is UTC, as on
the Cloudflare Workers platform the file targets).
-/

namespace Showroom

/-! ### String utilities (`digitsOnly`, `trim`, includes, toLowerCase) -/

/-- `digitsOnly`: embedding of `String(s).replace(/\D/g, "")`. -/
def digitsOnly (s : String) : String := ⟨s.data.filter Char.isDigit⟩

/-- Embedding of JavaScript `s.trim()`: strip whitespace from both ends. -/
def jsTrim (s : String) : String :=
  ⟨((s.data.dropWhile Char.isWhitespace).reverse.dropWhile Char.isWhitespace).reverse⟩

/-- Embedding of JavaScript `s.toLowerCase()` (ASCII case mapping). -/
def toLowerStr (s : String) : String := ⟨s.data.map Char.toLower⟩

/-- Needle matches a prefix of the haystack. -/
def prefixMatch : List Char → List Char → Bool
  | [], _ => true
  | _ :: _, [] => false
  | a :: as, b :: bs => a == b && prefixMatch as bs

/-- Needle occurs somewhere in the haystack. -/
def subList (needle : List Char) : List Char → Bool
  | [] => needle.isEmpty
  | b :: bs => prefixMatch needle (b :: bs) || subList needle bs

/-- Embedding of JavaScript `hay.includes(needle)`. -/
def containsSub (hay needle : String) : Bool := subList needle.data hay.data

/-- Fueled worker for `replaceAll` on character lists; the fuel is the
input length, which bounds the number of steps since every step consumes at
least one input character (for a non-empty pattern). -/
def replaceFuel (pat rep : List Char) : Nat → List Char → List Char
  | _, [] => []
  | 0, l => l
  | fuel + 1, c :: cs =>
    if prefixMatch pat (c :: cs) && !pat.isEmpty then
      rep ++ replaceFuel pat rep fuel (List.drop (pat.length - 1) cs)
    else
      c :: replaceFuel pat rep fuel cs

/-- Embedding of JavaScript `s.replaceAll(pat, rep)` (for a non-empty
plain-string pattern): replace every non-overlapping occurrence, scanning
left to right. -/
def jsReplaceAll (s pat rep : String) : String :=
  ⟨replaceFuel pat.data rep.data s.data.length s.data⟩

/-! ### Date syntax and calendar arithmetic -/

/-- Numeric value of a decimal digit character. -/
def digitVal (c : Char) : Nat := c.toNat - 48

/-- View a char list as the 10 characters of a `YYYY-MM-DD` candidate. -/
def ymdView : List Char →
    Option (Char × Char × Char × Char × Char × Char × Char × Char × Char × Char)
  | [a, b, c, d, s1, e, f, s2, g, h] => some (a, b, c, d, s1, e, f, s2, g, h)
  | _ => none

/-- The character-level condition of the regex `/^\d\x7b4\x7d-\d\x7b2\x7d-\d\x7b2\x7d$/`. -/
def ymdCond (a b c d s1 e f s2 g h : Char) : Bool :=
  a.isDigit && b.isDigit && c.isDigit && d.isDigit && s1 == '-' &&
  e.isDigit && f.isDigit && s2 == '-' && g.isDigit && h.isDigit

/-- Embedding of `isYMD` (the `YYYY-MM-DD` regex test) on a string value. -/
def isYMD (s : String) : Bool :=
  match ymdView s.data with
  | some (a, b, c, d, s1, e, f, s2, g, h) => ymdCond a b c d s1 e f s2 g h
  | none => false

/-- Embedding of `isYMD` on an optional (possibly absent) body field:
`isYMD(undefined)` is `false` because of the `typeof s === "string"` check. -/
def isYMDo : Option String → Bool
  | some s => isYMD s
  | none => false

/-- Numeric components of a syntactically well-formed `YYYY-MM-DD` string. -/
def parseYMD (s : String) : Option (Nat × Nat × Nat) :=
  if isYMD s then
    match ymdView s.data with
    | some (a, b, c, d, _s1, e, f, _s2, g, h) =>
      some (digitVal a * 1000 + digitVal b * 100 + digitVal c * 10 + digitVal d,
            digitVal e * 10 + digitVal f,
            digitVal g * 10 + digitVal h)
    | none => none
  else none

/-- View a char list as the 5 characters of an `HH:MM` candidate. -/
def hmView : List Char → Option (Char × Char × Char × Char × Char)
  | [a, b, c, d, e] => some (a, b, c, d, e)
  | _ => none

/-- The character-level condition of the regex `/^\d\x7b2\x7d:\d\x7b2\x7d$/`. -/
def hmCond (a b c d e : Char) : Bool :=
  a.isDigit && b.isDigit && c == ':' && d.isDigit && e.isDigit

/-- Embedding of `isHM` (the `HH:MM` regex test) on a string value. -/
def isHM (s : String) : Bool :=
  match hmView s.data with
  | some (a, b, c, d, e) => hmCond a b c d e
  | none => false

/-- Embedding of `isHM` on an optional body field. -/
def isHMo : Option String → Bool
  | some s => isHM s
  | none => false

/-- Numeric components of a syntactically well-formed `HH:MM` string. -/
def parseHM (s : String) : Option (Nat × Nat) :=
  if isHM s then
    match hmView s.data with
    | some (a, b, _c, d, e) =>
      some (digitVal a * 10 + digitVal b, digitVal d * 10 + digitVal e)
    | none => none
  else none

/-- Gregorian leap-year test. -/
def isLeap (y : Nat) : Bool := (y % 4 == 0 && y % 100 != 0) || y % 400 == 0

/-- Days in a Gregorian month. -/
def daysInMonth (y m : Nat) : Nat :=
  if m = 2 then (if isLeap y then 29 else 28)
  else if m = 4 ∨ m = 6 ∨ m = 9 ∨ m = 11 then 30 else 31

/-- Parse of a date string that `new Date(ymd + "T00:00:00Z")` accepts as a
real calendar date (syntax plus month/day range checks; out-of-range
components make the JavaScript `Date` invalid). -/
def parseValidYMD (s : String) : Option (Nat × Nat × Nat) :=
  match parseYMD s with
  | some (y, m, d) =>
    if 1 ≤ m ∧ m ≤ 12 ∧ 1 ≤ d ∧ d ≤ daysInMonth y m then some (y, m, d) else none
  | none => none

/-- Proleptic-Gregorian day number of the civil date `(y, m, d)`; the count
is shifted by 400 years so that every value is a `Nat` (the day-of-week and
day-difference structure is unchanged because the Gregorian calendar repeats
exactly every 400 years). -/
def dnum (y m d : Nat) : Nat :=
  let yy := if m ≤ 2 then y + 399 else y + 400
  let mp := if m ≤ 2 then m + 9 else m - 3
  yy * 365 + yy / 4 + yy / 400 + (153 * mp + 2) / 5 + d - 1 - yy / 100

/-- Day of week of a civil date, `0` = Sunday … `6` = Saturday: embedding of
`new Date(ymd + "T00:00:00Z").getUTCDay()` for valid dates. -/
def dayOfWeek (y m d : Nat) : Nat := (dnum y m d + 3) % 7

/-- Civil date `(y, m, d)` of a (shifted) day number: embedding of reading
`getUTCFullYear` / `getUTCMonth` / `getUTCDate` of an instant. -/
def civilOfDnum (z : Nat) : Nat × Nat × Nat :=
  let era := z / 146097
  let doe := z % 146097
  let yoe := (doe - doe / 1460 + doe / 36524 - doe / 146096) / 365
  let doy := doe - (365 * yoe + yoe / 4 - yoe / 100)
  let mp := (5 * doy + 2) / 153
  let d := doy - (153 * mp + 2) / 5 + 1
  let m := if mp < 10 then mp + 3 else mp - 9
  let y := yoe + era * 400 + (if m ≤ 2 then 1 else 0)
  (y - 400, m, d)

/-- Left-pad a number to two digits: embedding of `String(n).padStart(2, "0")`. -/
def pad2 (n : Nat) : String := if n < 10 then "0" ++ toString n else toString n

/-- `YYYY-MM-DD` rendering of a day number: embedding of the
`${y}-${mm}-${dd}` formatting used by the reminder scheduler. -/
def ymdOfDayNum (z : Nat) : String :=
  let c := civilOfDnum z
  toString c.1 ++ "-" ++ pad2 c.2.1 ++ "-" ++ pad2 c.2.2

/-! ### Data model: the `reservations` table -/

/-- A row of the `reservations` table. -/
@[ext]
structure Reservation where
  id : String
  createdAt : String
  date : String
  time : String
  name : String
  phone : String
  password : String
  landAddress : Option String := none
  notes : Option String := none
  status : String
  utm_source : Option String := none
  utm_medium : Option String := none
  utm_campaign : Option String := none
  notifyConfirmAt : Option String := none
  notifyD1At : Option String := none
  notifyD0At : Option String := none
  emailSentAt : Option String := none
  notifyLastError : Option String := none
  emailLastError : Option String := none
deriving Repr, DecidableEq

/-- Embedding of `emptyToNull` (empty-after-trim strings become SQL NULL). -/
def emptyToNull (s : String) : Option String :=
  if jsTrim s = "" then none else some (jsTrim s)

/-- First row with the given primary key: embedding of reading a row
`WHERE id = ?`. -/
def findRow (db : List Reservation) (id : String) : Option Reservation :=
  db.find? fun r => r.id == id

/-- Embedding of `UPDATE reservations SET ... WHERE id = ?`: every row whose
`id` matches is rewritten by `f`. -/
def updateRow (db : List Reservation) (id : String) (f : Reservation → Reservation) :
    List Reservation :=
  db.map fun r => if r.id == id then f r else r

/-- `SET notify_last_error = ? WHERE id = ?` (shared by the confirmation
failure path and both reminder failure paths). -/
def setNotifyErr (e : String) (r : Reservation) : Reservation :=
  { r with notifyLastError := some e }

/-- `SET notify_confirm_at = ?, notify_last_error = NULL WHERE id = ?`. -/
def setConfirmOk (ts : String) (r : Reservation) : Reservation :=
  { r with notifyConfirmAt := some ts, notifyLastError := none }

/-- `SET email_sent_at = ?, email_last_error = NULL WHERE id = ?`. -/
def setEmailOk (ts : String) (r : Reservation) : Reservation :=
  { r with emailSentAt := some ts, emailLastError := none }

/-- `SET email_last_error = ? WHERE id = ?`. -/
def setEmailErr (e : String) (r : Reservation) : Reservation :=
  { r with emailLastError := some e }

/-- The two reminder channels of the cron job. -/
inductive ReminderKind where
  | d1
  | d0
deriving Repr, DecidableEq

/-- The reminder channel's timestamp column (`notify_d1_at` / `notify_d0_at`). -/
def markOf : ReminderKind → Reservation → Option String
  | .d1, r => r.notifyD1At
  | .d0, r => r.notifyD0At

/-- `SET <markCol> = ?, notify_last_error = NULL WHERE id = ?`. -/
def setMarkOk : ReminderKind → String → Reservation → Reservation
  | .d1, ts, r => { r with notifyD1At := some ts, notifyLastError := none }
  | .d0, ts, r => { r with notifyD0At := some ts, notifyLastError := none }

/-! ### Slot rule engine and `/api/times` -/

/-- Embedding of `allowedTimesForDate`.  For a valid calendar date the
branch is selected by the UTC day-of-week; a syntactically well-formed but
invalid date gives an Invalid Date in JavaScript, whose `getUTCDay()` is
`NaN`, which matches neither `0` nor `6` and therefore falls through to the
weekday list. -/
def allowedTimesForDate (ymd : String) : List String :=
  match parseValidYMD ymd with
  | none => ["13:00", "15:00"]
  | some (y, m, d) =>
    let dow := dayOfWeek y m d
    if dow = 0 then []
    else if dow = 6 then ["14:00", "16:00"]
    else ["13:00", "15:00"]

/-- Embedding of `getClosedTimes`:
`SELECT time FROM reservations WHERE date=? AND status='booked'`. -/
def getClosedTimes (db : List Reservation) (ymd : String) : List String :=
  (db.filter fun r => r.date == ymd && r.status == "booked").map fun r => r.time

/-- Result of `GET /api/times`. -/
inductive TimesResp where
  | badRequest
  | ok (date : String) (times closed available : List String)
deriving Repr, DecidableEq

/-- Embedding of the `/api/times` route handler. -/
def timesHandler (db : List Reservation) (dateParam : Option String) : TimesResp :=
  if !isYMDo dateParam then .badRequest
  else
    .ok (dateParam.getD "") (allowedTimesForDate (dateParam.getD ""))
      (getClosedTimes db (dateParam.getD ""))
      ((allowedTimesForDate (dateParam.getD "")).filter
        fun t => !((getClosedTimes db (dateParam.getD "")).contains t))

/-! ### `POST /api/reserve` -/

/-- Fields of a `/api/reserve` JSON body; `none` models an absent field.
A body that fails to parse is coerced to the all-absent record. -/
structure ReserveBody where
  date : Option String := none
  time : Option String := none
  name : Option String := none
  phone : Option String := none
  password : Option String := none
  landAddress : Option String := none
  notes : Option String := none
  utm_source : Option String := none
  utm_medium : Option String := none
  utm_campaign : Option String := none
deriving Repr, DecidableEq

/-- Store statements issued by the reserve handler, in order. -/
inductive DbOp where
  | insertRow (r : Reservation)
  | confirmOk (ts id : String)
  | notifyErr (msg id : String)
  | emailOk (ts id : String)
  | emailErr (msg id : String)
deriving Repr, DecidableEq

/-- Is the statement an `INSERT`? -/
def isInsertOp : DbOp → Bool
  | .insertRow _ => true
  | _ => false

/-- Effect of one issued statement on the stored rows (for `insertRow`,
the effect when the store accepts it). -/
def applyOp (db : List Reservation) : DbOp → List Reservation
  | .insertRow r => db ++ [r]
  | .confirmOk ts i => updateRow db i (setConfirmOk ts)
  | .notifyErr e i => updateRow db i (setNotifyErr e)
  | .emailOk ts i => updateRow db i (setEmailOk ts)
  | .emailErr e i => updateRow db i (setEmailErr e)

/-- Effect of a statement sequence on the stored rows. -/
def applyOps (db : List Reservation) (ops : List DbOp) : List Reservation :=
  ops.foldl applyOp db

/-- Outcomes of the effects the reserve handler awaits: the `INSERT`, the
confirmation-message send and the admin-email send (`none` = success,
`some msg` = thrown error with message `msg`), plus the timestamps taken
for the two success updates. -/
structure ReserveFx where
  insertResult : Option String
  confirmResult : Option String
  emailResult : Option String
  confirmTs : String
  emailTs : String
deriving Repr, DecidableEq

/-- The row built by the `INSERT INTO reservations ... VALUES (...)`
statement from the parsed body fields. -/
def reservationRow (body : ReserveBody) (id createdAt : String) : Reservation :=
  { id := id
    createdAt := createdAt
    date := body.date.getD ""
    time := body.time.getD ""
    name := jsTrim (body.name.getD "")
    phone := digitsOnly (body.phone.getD "")
    password := jsTrim (body.password.getD "")
    landAddress := emptyToNull (jsTrim (body.landAddress.getD ""))
    notes := emptyToNull (jsTrim (body.notes.getD ""))
    status := "booked"
    utm_source := emptyToNull (jsTrim (body.utm_source.getD ""))
    utm_medium := emptyToNull (jsTrim (body.utm_medium.getD ""))
    utm_campaign := emptyToNull (jsTrim (body.utm_campaign.getD "")) }

/-- The statement issued for the confirmation-message attempt: the success
update on success, the `notify_last_error` update on failure. -/
def confirmOp (fx : ReserveFx) (id : String) : DbOp :=
  match fx.confirmResult with
  | none => .confirmOk fx.confirmTs id
  | some e => .notifyErr e id

/-- The statement issued for the admin-email attempt: the success update on
success, the `email_last_error` update on failure. -/
def emailOp (fx : ReserveFx) (id : String) : DbOp :=
  match fx.emailResult with
  | none => .emailOk fx.emailTs id
  | some e => .emailErr e id

/-- HTTP responses of the write handlers. -/
inductive ApiResp where
  | ok (id : String)
  | okUnit
  | err (status : Nat) (error : String) (detail : Option String)
deriving Repr, DecidableEq

/-- Embedding of the `/api/reserve` route handler: the response together
with the ordered list of store statements it issues.  `bodyOpt = none`
models a request body that was absent or not valid JSON (the code coerces
it to `\x7b\x7d`). -/
def reserveHandler (bodyOpt : Option ReserveBody) (id createdAt : String) (fx : ReserveFx) :
    ApiResp × List DbOp :=
  if !isYMDo (bodyOpt.getD {}).date then (.err 400 "invalid date" none, [])
  else if !isHMo (bodyOpt.getD {}).time then (.err 400 "invalid time" none, [])
  else if (jsTrim ((bodyOpt.getD {}).name.getD "")).length < 2 then
    (.err 400 "name required" none, [])
  else if (digitsOnly ((bodyOpt.getD {}).phone.getD "")).length < 9 then
    (.err 400 "phone required" none, [])
  else if (jsTrim ((bodyOpt.getD {}).password.getD "")).length < 4 then
    (.err 400 "password(>=4) required" none, [])
  else if !((allowedTimesForDate ((bodyOpt.getD {}).date.getD "")).contains
      ((bodyOpt.getD {}).time.getD "")) then
    (.err 400 "time not allowed for that date" none, [])
  else
    match fx.insertResult with
    | some msg =>
      if containsSub (toLowerStr msg) "unique" || containsSub (toLowerStr msg) "constraint" then
        (.err 409 "already booked" none,
         [.insertRow (reservationRow (bodyOpt.getD {}) id createdAt)])
      else
        (.err 500 "db error" (some msg),
         [.insertRow (reservationRow (bodyOpt.getD {}) id createdAt)])
    | none =>
      (.ok id,
       [.insertRow (reservationRow (bodyOpt.getD {}) id createdAt), confirmOp fx id,
        emailOp fx id])

/-- The conjunction of the six validation checks, in the handler's order. -/
def validReserve (body : ReserveBody) : Bool :=
  isYMDo body.date && isHMo body.time
    && decide (2 ≤ (jsTrim (body.name.getD "")).length)
    && decide (9 ≤ (digitsOnly (body.phone.getD "")).length)
    && decide (4 ≤ (jsTrim (body.password.getD "")).length)
    && (allowedTimesForDate (body.date.getD "")).contains (body.time.getD "")

/-! ### `POST /api/cancel` -/

/-- Fields of a `/api/cancel` JSON body; `none` models an absent field. -/
structure CancelBody where
  id : Option String := none
  name : Option String := none
  phone : Option String := none
  password : Option String := none
deriving Repr, DecidableEq

/-- The `WHERE` clause of the cancel `UPDATE`:
`id=? AND name=? AND phone=? AND password=? AND status='booked'`. -/
def cancelMatch (id name phone password : String) (r : Reservation) : Bool :=
  r.id == id && r.name == name && r.phone == phone && r.password == password &&
    r.status == "booked"

/-- The trimmed `id` field of a cancel body. -/
def cancelId (bodyOpt : Option CancelBody) : String := jsTrim ((bodyOpt.getD {}).id.getD "")

/-- The trimmed `name` field of a cancel body. -/
def cancelName (bodyOpt : Option CancelBody) : String := jsTrim ((bodyOpt.getD {}).name.getD "")

/-- The digit-stripped `phone` field of a cancel body. -/
def cancelPhone (bodyOpt : Option CancelBody) : String :=
  digitsOnly ((bodyOpt.getD {}).phone.getD "")

/-- The trimmed `password` field of a cancel body. -/
def cancelPw (bodyOpt : Option CancelBody) : String :=
  jsTrim ((bodyOpt.getD {}).password.getD "")

/-- Effect of the cancel `UPDATE` on the stored rows. -/
def cancelUpdate (bodyOpt : Option CancelBody) (db : List Reservation) : List Reservation :=
  db.map fun r =>
    if cancelMatch (cancelId bodyOpt) (cancelName bodyOpt) (cancelPhone bodyOpt)
        (cancelPw bodyOpt) r then
      { r with status := "canceled" }
    else r

/-- Embedding of the `/api/cancel` route handler: the response together
with the resulting stored rows.  The `UPDATE` always runs once the field
check passes; `meta.changes` is the number of rows the `WHERE` clause
matched. -/
def cancelHandler (bodyOpt : Option CancelBody) (db : List Reservation) :
    ApiResp × List Reservation :=
  if cancelId bodyOpt = "" ∨ cancelName bodyOpt = "" ∨ cancelPhone bodyOpt = "" ∨
      cancelPw bodyOpt = "" then
    (.err 400 "id/name/phone/password required" none, db)
  else if (db.filter (cancelMatch (cancelId bodyOpt) (cancelName bodyOpt) (cancelPhone bodyOpt)
      (cancelPw bodyOpt))).length < 1 then
    (.err 404 "not found or already canceled" none, cancelUpdate bodyOpt db)
  else
    (.okUnit, cancelUpdate bodyOpt db)

/-! ### Cron reminders (`runReminders` / `sendBatch`) -/

/-- One reminder attempt recorded in the scheduler's trace. -/
structure SendAttempt where
  kind : ReminderKind
  rid : String
  ok : Bool
deriving Repr, DecidableEq

/-- Embedding of the batch `SELECT`:
`WHERE status='booked' AND date=? AND <markCol> IS NULL LIMIT 200`. -/
def selectBatch (db : List Reservation) (date : String) (kind : ReminderKind) :
    List Reservation :=
  (db.filter fun r => r.status == "booked" && r.date == date && (markOf kind r).isNone).take 200

/-- One iteration of the batch loop: attempt the reminder send for row `r`;
on success stamp the mark column and clear `notify_last_error`, on failure
record the error in `notify_last_error`. -/
def batchStep (kind : ReminderKind) (outcome : String → Option String) (ts : String)
    (acc : List Reservation × List SendAttempt) (r : Reservation) :
    List Reservation × List SendAttempt :=
  match outcome r.id with
  | none => (updateRow acc.1 r.id (setMarkOk kind ts), acc.2 ++ [⟨kind, r.id, true⟩])
  | some e => (updateRow acc.1 r.id (setNotifyErr e), acc.2 ++ [⟨kind, r.id, false⟩])

/-- Embedding of `sendBatch`: select the batch, then process its rows one
at a time.  `outcome` gives each reservation's send result (`none` =
success). -/
def sendBatch (db : List Reservation) (date : String) (kind : ReminderKind)
    (outcome : String → Option String) (ts : String) :
    List Reservation × List SendAttempt :=
  (selectBatch db date kind).foldl (batchStep kind outcome ts) (db, [])

/-- Embedding of `runReminders`: "today" is the calendar date read from the
UTC fields of the current instant plus 9 hours (`nowMin` is the current
instant in minutes), "tomorrow" is the following calendar day; the D-1
batch for tomorrow runs before the D-day batch for today. -/
def runReminders (db : List Reservation) (nowMin : Nat)
    (outcome : ReminderKind → String → Option String) (ts : String) :
    List Reservation × List SendAttempt :=
  let kstDay := (nowMin + 540) / 1440
  let today := ymdOfDayNum kstDay
  let tomorrow := ymdOfDayNum (kstDay + 1)
  let s1 := sendBatch db tomorrow .d1 (outcome .d1) ts
  let s2 := sendBatch s1.1 today .d0 (outcome .d0) ts
  (s2.1, s1.2 ++ s2.2)

/-! ### Admin email HTML and ICS attachment -/

/-- The booking record passed to `sendAdminEmailWithICS`. -/
structure BookingInfo where
  id : String
  date : String
  time : String
  name : String
  phone : String
  landAddress : String
  notes : String
deriving Repr, DecidableEq

/-- Embedding of `escapeICS`: backslash, newline, comma, semicolon, in that
order. -/
def escapeICS (s : String) : String :=
  jsReplaceAll (jsReplaceAll (jsReplaceAll (jsReplaceAll s "\\" "\\\\") "\n" "\\n") "," "\\,")
    ";" "\\;"

/-- Embedding of `toICSStampUTC` at whole-minute resolution. -/
def toICSStampUTC (t : Nat) : String :=
  let c := civilOfDnum (t / 1440)
  toString c.1 ++ pad2 c.2.1 ++ pad2 c.2.2 ++ "T" ++
    pad2 (t % 1440 / 60) ++ pad2 (t % 60) ++ "00Z"

/-- Embedding of `toLocalICS`: renders an instant using the runtime's local
date fields; the local timezone of the target platform is UTC. -/
def toLocalICS (t : Nat) : String :=
  let c := civilOfDnum (t / 1440)
  toString c.1 ++ pad2 c.2.1 ++ pad2 c.2.2 ++ "T" ++
    pad2 (t % 1440 / 60) ++ pad2 (t % 60) ++ "00"

/-- Arguments of `buildICS`. -/
structure ICSArgs where
  uid : String
  title : String
  startLocal : String
  endLocal : String
  location : String
  description : String
deriving Repr, DecidableEq

/-- The lines of the calendar document built by `buildICS`, in order. -/
def icsLines (nowMin : Nat) (args : ICSArgs) : List String :=
  ["BEGIN:VCALENDAR",
   "VERSION:2.0",
   "PRODID:-//NETOGREEN//Meta Showroom//KR",
   "CALSCALE:GREGORIAN",
   "METHOD:REQUEST",
   "BEGIN:VEVENT",
   "UID:" ++ args.uid,
   "DTSTAMP:" ++ toICSStampUTC nowMin,
   "DTSTART:" ++ args.startLocal,
   "DTEND:" ++ args.endLocal,
   "SUMMARY:" ++ escapeICS args.title,
   "LOCATION:" ++ escapeICS args.location,
   "DESCRIPTION:" ++ escapeICS args.description,
   "END:VEVENT",
   "END:VCALENDAR"]

/-- Embedding of `buildICS`: the lines joined with CRLF. -/
def buildICS (nowMin : Nat) (args : ICSArgs) : String :=
  "\r\n".intercalate (icsLines nowMin args)

/-- The showroom's fixed location text used for the `LOCATION` field. -/
def showroomLocation : String := "경기 화성시 동탄첨단산업1로 14, 동탄K밸리 312호"

/-- Embedding of `new Date(date + "T" + time + ":00+09:00")` in minutes:
the instant whose UTC+9 reading is the booking's date and time.  Only
evaluated on valid dates and times (the handler validates both before any
email is sent). -/
def startInstant (date time : String) : Nat :=
  match parseValidYMD date, parseHM time with
  | some (y, m, d), some (hh, mi) => dnum y m d * 1440 + hh * 60 + mi - 540
  | _, _ => 0

/-- The `buildICS` arguments constructed by `sendAdminEmailWithICS`:
UID = reservation id, start = booking date+time at UTC+9, end = start plus
one hour (60*60*1000 ms), fixed location. -/
def reservationICSArgs (b : BookingInfo) : ICSArgs :=
  { uid := b.id
    title := "네토그린 쇼룸 방문 (" ++ b.name ++ ")"
    startLocal := toLocalICS (startInstant b.date b.time)
    endLocal := toLocalICS (startInstant b.date b.time + 60)
    location := showroomLocation
    description := "예약자: " ++ b.name ++ "\n전화: " ++ b.phone ++ "\n(메타 전용 예약)\n" }

/-- The calendar document attached by `sendAdminEmailWithICS`. -/
def reservationICS (nowMin : Nat) (b : BookingInfo) : String :=
  buildICS nowMin (reservationICSArgs b)

/-- HTML escaping of `&`, `<`, `>`, as applied to `safeNotes`. -/
def escapeHtml3 (s : String) : String :=
  jsReplaceAll (jsReplaceAll (jsReplaceAll s "&" "&amp;") "<" "&lt;") ">" "&gt;"

/-- Embedding of the HTML body built by `sendAdminEmailWithICS`: only the
`notes` value goes through the escaping step; `name`, `phone`,
`landAddress`, `date` and `time` are interpolated as-is. -/
def adminEmailHtml (b : BookingInfo) : String :=
  let safeNotes := escapeHtml3 (if b.notes = "" then "-" else b.notes)
  "\n    <h3>메타 전용 쇼룸 예약</h3>\n    <ul>\n      <li><b>일시</b>: "
    ++ b.date ++ " " ++ b.time
    ++ "</li>\n      <li><b>이름</b>: " ++ b.name
    ++ "</li>\n      <li><b>전화</b>: " ++ b.phone
    ++ "</li>\n      <li><b>설치 희망 주소</b>: "
    ++ (if b.landAddress = "" then "-" else b.landAddress)
    ++ "</li>\n      <li><b>요청사항</b>: " ++ safeNotes
    ++ "</li>\n    </ul>\n    <p>캘린더(.ics) 초대장이 첨부되어 있습니다.</p>\n  "

/-! ### Helper lemmas -/

theorem isYMD_of_parseYMD {s : String} {v : Nat × Nat × Nat}
    (h : parseYMD s = some v) : isYMD s = true := by
  by_cases hy : isYMD s = true
  · exact hy
  · unfold parseYMD at h
    rw [if_neg hy] at h
    exact absurd h (by simp)

theorem isYMD_of_parseValidYMD {s : String} {v : Nat × Nat × Nat}
    (h : parseValidYMD s = some v) : isYMD s = true := by
  unfold parseValidYMD at h
  cases hp : parseYMD s with
  | none => rw [hp] at h; exact absurd h (by simp)
  | some w => exact isYMD_of_parseYMD hp

@[simp] theorem setNotifyErr_id (e : String) (r : Reservation) :
    (setNotifyErr e r).id = r.id := rfl

@[simp] theorem setConfirmOk_id (ts : String) (r : Reservation) :
    (setConfirmOk ts r).id = r.id := rfl

@[simp] theorem setEmailOk_id (ts : String) (r : Reservation) :
    (setEmailOk ts r).id = r.id := rfl

@[simp] theorem setEmailErr_id (e : String) (r : Reservation) :
    (setEmailErr e r).id = r.id := rfl

@[simp] theorem setMarkOk_id (k : ReminderKind) (ts : String) (r : Reservation) :
    (setMarkOk k ts r).id = r.id := by cases k <;> rfl

theorem findRow_cons_self {a : Reservation} {db : List Reservation} :
    findRow (a :: db) a.id = some a := by
  unfold findRow
  exact List.find?_cons_of_pos _ (by simp)

theorem findRow_cons_ne {a : Reservation} {db : List Reservation} {i : String}
    (h : a.id ≠ i) : findRow (a :: db) i = findRow db i := by
  unfold findRow
  exact List.find?_cons_of_neg _ (by simp [h])

theorem findRow_append_fresh (db : List Reservation) (row : Reservation)
    (h : ∀ x ∈ db, x.id ≠ row.id) :
    findRow (db ++ [row]) row.id = some row := by
  induction db with
  | nil => exact findRow_cons_self
  | cons a t ih =>
    rw [List.cons_append, findRow_cons_ne (h a (by simp))]
    exact ih fun x hx => h x (by simp [hx])

theorem findRow_of_mem (db : List Reservation)
    (hnd : (db.map fun r => r.id).Nodup) (r : Reservation) (hr : r ∈ db) :
    findRow db r.id = some r := by
  induction db with
  | nil => cases hr
  | cons a t ih =>
    rw [List.map_cons, List.nodup_cons] at hnd
    rcases List.mem_cons.mp hr with rfl | hr'
    · exact findRow_cons_self
    · have ha : a.id ≠ r.id := fun hEq =>
        hnd.1 (hEq ▸ List.mem_map_of_mem (fun x => x.id) hr')
      rw [findRow_cons_ne ha]
      exact ih hnd.2 hr'

theorem findRow_updateRow_ne (db : List Reservation) (j i : String)
    (f : Reservation → Reservation) (hf : ∀ x, (f x).id = x.id) (hij : j ≠ i) :
    findRow (updateRow db j f) i = findRow db i := by
  induction db with
  | nil => rfl
  | cons a t ih =>
    show findRow ((if (a.id == j) = true then f a else a) :: updateRow t j f) i
      = findRow (a :: t) i
    by_cases haj : a.id = j
    · rw [if_pos (by simp [haj])]
      rw [findRow_cons_ne (show (f a).id ≠ i by rw [hf a, haj]; exact hij)]
      rw [findRow_cons_ne (show a.id ≠ i by rw [haj]; exact hij)]
      exact ih
    · rw [if_neg (by simp [haj])]
      by_cases hai : a.id = i
      · rw [show findRow (a :: updateRow t j f) i = some a from hai ▸ findRow_cons_self,
            show findRow (a :: t) i = some a from hai ▸ findRow_cons_self]
      · rw [findRow_cons_ne hai, findRow_cons_ne hai]
        exact ih

theorem findRow_updateRow_self (db : List Reservation) (j : String) (r : Reservation)
    (f : Reservation → Reservation) (hf : ∀ x, (f x).id = x.id)
    (h : findRow db j = some r) :
    findRow (updateRow db j f) j = some (f r) := by
  induction db with
  | nil => exact absurd h (by simp [findRow])
  | cons a t ih =>
    show findRow ((if (a.id == j) = true then f a else a) :: updateRow t j f) j
      = some (f r)
    by_cases haj : a.id = j
    · have ha : findRow (a :: t) j = some a := haj ▸ findRow_cons_self
      rw [ha] at h
      obtain rfl := Option.some_injective _ h
      rw [if_pos (by simp [haj])]
      have hfa : (f a).id = j := by rw [hf a, haj]
      exact hfa ▸ findRow_cons_self
    · rw [if_neg (by simp [haj])]
      rw [findRow_cons_ne haj] at h
      rw [findRow_cons_ne haj]
      exact ih h

theorem ids_updateRow (db : List Reservation) (j : String)
    (f : Reservation → Reservation) (hf : ∀ x, (f x).id = x.id) :
    (updateRow db j f).map (fun r => r.id) = db.map fun r => r.id := by
  unfold updateRow
  rw [List.map_map]
  refine List.map_congr_left fun a _ => ?_
  by_cases haj : a.id = j <;> simp [haj, hf]

/-- The row value written back by one batch iteration: stamped mark column
and cleared error on success, recorded error on failure. -/
def outcomeUpdate (kind : ReminderKind) (outcome : String → Option String) (ts : String)
    (r : Reservation) : Reservation :=
  match outcome r.id with
  | none => setMarkOk kind ts r
  | some e => setNotifyErr e r

theorem batchStep_findRow_ne (kind : ReminderKind) (outcome : String → Option String)
    (ts : String) (acc : List Reservation × List SendAttempt) (q : Reservation)
    (i : String) (h : q.id ≠ i) :
    findRow (batchStep kind outcome ts acc q).1 i = findRow acc.1 i := by
  unfold batchStep
  cases hq : outcome q.id with
  | none => exact findRow_updateRow_ne _ _ _ _ (fun x => setMarkOk_id kind ts x) h
  | some e => exact findRow_updateRow_ne _ _ _ _ (fun x => setNotifyErr_id e x) h

theorem foldl_batch_findRow_ne (kind : ReminderKind) (outcome : String → Option String)
    (ts : String) (rows : List Reservation) :
    ∀ (acc : List Reservation × List SendAttempt) (i : String),
      (∀ r ∈ rows, r.id ≠ i) →
      findRow (rows.foldl (batchStep kind outcome ts) acc).1 i = findRow acc.1 i := by
  induction rows with
  | nil => intro acc i _; rfl
  | cons q rest ih =>
    intro acc i h
    rw [List.foldl_cons]
    rw [ih _ _ fun r hr => h r (List.mem_cons.mpr (Or.inr hr))]
    exact batchStep_findRow_ne _ _ _ _ _ _ (h q (List.mem_cons.mpr (Or.inl rfl)))

theorem foldl_batch_spec (kind : ReminderKind) (outcome : String → Option String)
    (ts : String) (rows : List Reservation) :
    ∀ (acc : List Reservation × List SendAttempt),
      (rows.map fun r => r.id).Nodup →
      (∀ r ∈ rows, findRow acc.1 r.id = some r) →
      ∀ r ∈ rows,
        findRow (rows.foldl (batchStep kind outcome ts) acc).1 r.id
          = some (outcomeUpdate kind outcome ts r) := by
  induction rows with
  | nil => intro acc _ _ r hr; cases hr
  | cons q rest ih =>
    intro acc hnd hfind r hr
    rw [List.map_cons, List.nodup_cons] at hnd
    have hrest_ne : ∀ x ∈ rest, x.id ≠ q.id := fun x hx hEq =>
      hnd.1 (hEq ▸ List.mem_map_of_mem (fun y => y.id) hx)
    rw [List.foldl_cons]
    rcases List.mem_cons.mp hr with rfl | hr'
    · rw [foldl_batch_findRow_ne _ _ _ _ _ _ hrest_ne]
      unfold batchStep outcomeUpdate
      cases hq : outcome r.id with
      | none =>
        exact findRow_updateRow_self _ _ _ _ (fun x => setMarkOk_id kind ts x)
          (hfind r (List.mem_cons.mpr (Or.inl rfl)))
      | some e =>
        exact findRow_updateRow_self _ _ _ _ (fun x => setNotifyErr_id e x)
          (hfind r (List.mem_cons.mpr (Or.inl rfl)))
    · refine ih _ hnd.2 ?_ r hr'
      intro x hx
      rw [batchStep_findRow_ne _ _ _ _ _ _ fun hEq => hrest_ne x hx hEq.symm]
      exact hfind x (List.mem_cons.mpr (Or.inr hx))

theorem foldl_batch_trace (kind : ReminderKind) (outcome : String → Option String)
    (ts : String) (rows : List Reservation) :
    ∀ (acc : List Reservation × List SendAttempt),
      (rows.foldl (batchStep kind outcome ts) acc).2
        = acc.2 ++ rows.map fun r => SendAttempt.mk kind r.id (outcome r.id).isNone := by
  induction rows with
  | nil => intro acc; simp
  | cons q rest ih =>
    intro acc
    rw [List.foldl_cons, ih]
    unfold batchStep
    cases hq : outcome q.id <;> simp [hq]

theorem ids_batchStep (kind : ReminderKind) (outcome : String → Option String)
    (ts : String) (acc : List Reservation × List SendAttempt) (q : Reservation) :
    ((batchStep kind outcome ts acc q).1.map fun r => r.id) = acc.1.map fun r => r.id := by
  unfold batchStep
  cases hq : outcome q.id with
  | none => exact ids_updateRow _ _ _ fun x => setMarkOk_id kind ts x
  | some e => exact ids_updateRow _ _ _ fun x => setNotifyErr_id e x

theorem ids_foldl_batch (kind : ReminderKind) (outcome : String → Option String)
    (ts : String) (rows : List Reservation) :
    ∀ (acc : List Reservation × List SendAttempt),
      ((rows.foldl (batchStep kind outcome ts) acc).1.map fun r => r.id)
        = acc.1.map fun r => r.id := by
  induction rows with
  | nil => intro acc; rfl
  | cons q rest ih => intro acc; rw [List.foldl_cons, ih, ids_batchStep]

theorem selectBatch_sublist (db : List Reservation) (date : String) (kind : ReminderKind) :
    (selectBatch db date kind).Sublist db :=
  (List.take_sublist _ _).trans (List.filter_sublist _)

theorem selectBatch_nodup (db : List Reservation) (date : String) (kind : ReminderKind)
    (hnd : (db.map fun r => r.id).Nodup) :
    ((selectBatch db date kind).map fun r => r.id).Nodup :=
  List.Nodup.sublist ((selectBatch_sublist db date kind).map _) hnd

theorem sendBatch_row_spec (db : List Reservation) (date : String) (kind : ReminderKind)
    (outcome : String → Option String) (ts : String)
    (hnd : (db.map fun r => r.id).Nodup) :
    ∀ r ∈ selectBatch db date kind,
      findRow (sendBatch db date kind outcome ts).1 r.id
        = some (outcomeUpdate kind outcome ts r) := by
  intro r hr
  refine foldl_batch_spec _ _ _ _ _ (selectBatch_nodup db date kind hnd) ?_ r hr
  intro x hx
  exact findRow_of_mem db hnd x ((selectBatch_sublist db date kind).subset hx)

theorem sendBatch_trace (db : List Reservation) (date : String) (kind : ReminderKind)
    (outcome : String → Option String) (ts : String) :
    (sendBatch db date kind outcome ts).2
      = (selectBatch db date kind).map
          fun r => SendAttempt.mk kind r.id (outcome r.id).isNone := by
  unfold sendBatch
  rw [foldl_batch_trace]
  simp

theorem sendBatch_ids (db : List Reservation) (date : String) (kind : ReminderKind)
    (outcome : String → Option String) (ts : String) :
    ((sendBatch db date kind outcome ts).1.map fun r => r.id) = db.map fun r => r.id := by
  unfold sendBatch
  rw [ids_foldl_batch]

/-! ### Claim C10: unparsable bodies are coerced and rejected with 400 -/

/-- C10: for every POST to `/api/reserve` or `/api/cancel` whose body is
absent or not valid JSON, the body is coerced to an empty object and the
request is rejected 400 by the first failing field check (invalid date for
reserve; missing id/name/phone/password for cancel); no store statement is
issued and the 500 unhandled-error path is never reached. -/
theorem unparsableBody_rejected (id createdAt : String) (fx : ReserveFx)
    (db : List Reservation) :
    reserveHandler none id createdAt fx = (.err 400 "invalid date" none, []) ∧
    cancelHandler none db = (.err 400 "id/name/phone/password required" none, db) :=
  ⟨rfl, rfl⟩

/-! ### Claim C3: `/api/times` and the slot rule table -/

/-- What C3 asserts of a valid date `s` with components `(y, m, d)`. -/
def C3Concl (db : List Reservation) (s : String) (y m d : Nat) : Prop :=
  timesHandler db (some s)
      = .ok s (allowedTimesForDate s) (getClosedTimes db s)
          ((allowedTimesForDate s).filter fun t => !((getClosedTimes db s).contains t)) ∧
  (dayOfWeek y m d = 0 → allowedTimesForDate s = []) ∧
  (dayOfWeek y m d = 6 → allowedTimesForDate s = ["14:00", "16:00"]) ∧
  (1 ≤ dayOfWeek y m d → dayOfWeek y m d ≤ 5 → allowedTimesForDate s = ["13:00", "15:00"]) ∧
  getClosedTimes db s
      = (db.filter fun r => r.date == s && r.status == "booked").map (fun r => r.time) ∧
  ((∀ r ∈ db, ¬(r.date = s ∧ r.status = "booked")) →
    getClosedTimes db s = [] ∧
    (allowedTimesForDate s).filter (fun t => !((getClosedTimes db s).contains t))
      = allowedTimesForDate s)

/-- C3: for every valid calendar date string, `GET /api/times` returns the
rule-table times keyed on the UTC day-of-week (Sunday empty, Saturday
14:00/16:00, Monday-Friday 13:00/15:00 in order), the booked times of that
date as `closed`, and `times` minus `closed` (order preserved) as
`available`; with no booked reservation the full list is available. -/
theorem times_rule_table_spec (db : List Reservation) (s : String) (y m d : Nat)
    (h : parseValidYMD s = some (y, m, d)) : C3Concl db s y m d := by
  have hymd : isYMD s = true := isYMD_of_parseValidYMD h
  refine ⟨?_, ?_, ?_, ?_, rfl, ?_⟩
  · unfold timesHandler
    rw [show isYMDo (some s) = true from hymd]
    rfl
  · intro h0
    unfold allowedTimesForDate
    rw [h]
    simp [h0]
  · intro h6
    unfold allowedTimesForDate
    rw [h]
    simp [h6]
  · intro h1 h5
    unfold allowedTimesForDate
    rw [h]
    have hne0 : ¬(dayOfWeek y m d = 0) := by omega
    have hne6 : ¬(dayOfWeek y m d = 6) := by omega
    simp [hne0, hne6]
  · intro hno
    have hcl : getClosedTimes db s = [] := by
      unfold getClosedTimes
      rw [List.filter_eq_nil_iff.mpr ?_]
      · rfl
      · intro r hr hb
        simp only [Bool.and_eq_true, beq_iff_eq] at hb
        exact hno r hr hb
    refine ⟨hcl, ?_⟩
    rw [hcl]
    apply List.filter_eq_self.mpr
    intro t _
    rfl

/-- Witness for C3 at the concrete Saturday `2025-03-15` and the empty
store. -/
theorem times_rule_table_spec_witness :
    parseValidYMD "2025-03-15" = some (2025, 3, 15) ∧ C3Concl [] "2025-03-15" 2025 3 15 :=
  ⟨by decide, times_rule_table_spec [] "2025-03-15" 2025 3 15 (by decide)⟩

/-! ### Claim C9: `/api/cancel` -/

/-- What C9 asserts of a cancel request whose four fields are present. -/
def C9Concl (bodyOpt : Option CancelBody) (db : List Reservation) : Prop :=
  cancelId bodyOpt ≠ "" → cancelName bodyOpt ≠ "" → cancelPhone bodyOpt ≠ "" →
  cancelPw bodyOpt ≠ "" →
    ((∃ r ∈ db, cancelMatch (cancelId bodyOpt) (cancelName bodyOpt) (cancelPhone bodyOpt)
        (cancelPw bodyOpt) r = true) →
      cancelHandler bodyOpt db = (.okUnit, cancelUpdate bodyOpt db)) ∧
    ((∀ r ∈ db, cancelMatch (cancelId bodyOpt) (cancelName bodyOpt) (cancelPhone bodyOpt)
        (cancelPw bodyOpt) r = false) →
      cancelHandler bodyOpt db = (.err 404 "not found or already canceled" none, db)) ∧
    (∀ r : Reservation, cancelMatch (cancelId bodyOpt) (cancelName bodyOpt)
        (cancelPhone bodyOpt) (cancelPw bodyOpt) r = true → r.status = "booked") ∧
    (∀ r ∈ db, cancelMatch (cancelId bodyOpt) (cancelName bodyOpt) (cancelPhone bodyOpt)
        (cancelPw bodyOpt) r = true →
      ({ r with status := "canceled" } : Reservation) ∈ cancelUpdate bodyOpt db)

/-- C9: with all four fields present, a reservation transitions from
`booked` to `canceled` exactly when a row matches the id, trimmed name,
digit-stripped phone and trimmed password with status `booked`; wrong
credentials, an already-canceled row and a nonexistent id all yield the
identical 404 response and leave every stored row unmodified. -/
theorem cancel_spec (bodyOpt : Option CancelBody) (db : List Reservation) :
    C9Concl bodyOpt db := by
  intro h1 h2 h3 h4
  refine ⟨?_, ?_, ?_, ?_⟩
  · rintro ⟨r, hr, hm⟩
    have hmem := List.mem_filter.mpr ⟨hr, hm⟩
    have hlen := List.length_pos.mpr (List.ne_nil_of_mem hmem)
    unfold cancelHandler
    rw [if_neg (by push_neg; exact ⟨h1, h2, h3, h4⟩), if_neg (by omega)]
  · intro hall
    have hnil : db.filter (cancelMatch (cancelId bodyOpt) (cancelName bodyOpt)
        (cancelPhone bodyOpt) (cancelPw bodyOpt)) = [] :=
      List.filter_eq_nil_iff.mpr fun r hr => by rw [hall r hr]; simp
    have hupd : cancelUpdate bodyOpt db = db := by
      unfold cancelUpdate
      have hid : ∀ r ∈ db,
          (if cancelMatch (cancelId bodyOpt) (cancelName bodyOpt) (cancelPhone bodyOpt)
              (cancelPw bodyOpt) r then { r with status := "canceled" } else r) = id r := by
        intro r hr
        rw [hall r hr]
        rfl
      rw [List.map_congr_left hid, List.map_id]
    unfold cancelHandler
    rw [if_neg (by push_neg; exact ⟨h1, h2, h3, h4⟩), if_pos (by rw [hnil]; simp), hupd]
  · intro r hm
    unfold cancelMatch at hm
    simp only [Bool.and_eq_true, beq_iff_eq] at hm
    exact hm.2
  · intro r hr hm
    unfold cancelUpdate
    simpa [hm] using List.mem_map_of_mem
      (fun r => if cancelMatch (cancelId bodyOpt) (cancelName bodyOpt) (cancelPhone bodyOpt)
          (cancelPw bodyOpt) r then { r with status := "canceled" } else r) hr

/-- The cancel body of the C9 witness. -/
def cb9 : CancelBody :=
  { id := some "res-9", name := some "Kim", phone := some "010-1234-5678",
    password := some "pw99" }

/-- The stored row of the C9 witness. -/
def row9 : Reservation :=
  { id := "res-9", createdAt := "t", date := "2025-03-15", time := "14:00", name := "Kim",
    phone := "01012345678", password := "pw99", status := "booked" }

/-- Witness for C9 at a concrete matching row. -/
theorem cancel_spec_witness : C9Concl (some cb9) [row9] := cancel_spec (some cb9) [row9]

/-! ### Claim C7: HTML escaping of user text in the admin email -/

/-- A booking whose name and notes carry HTML markup.  It passes every
admission check (name length 8 ≥ 2 after trimming), so it reaches the
email channel unchanged. -/
def bk7 : BookingInfo :=
  { id := "res-7", date := "2025-03-15", time := "14:00", name := "<b>x</b>",
    phone := "01012345678", landAddress := "", notes := "<i>y</i>" }

/-- The `/api/reserve` body producing `bk7`. -/
def body7 : ReserveBody :=
  { date := some "2025-03-15", time := some "14:00", name := some "<b>x</b>",
    phone := some "010-1234-5678", password := some "pw99", notes := some "<i>y</i>" }

/-- C7 (code bug): the claim and the spec require the customer name, the
address and the notes to be escaped for `&`, `<`, `>` before insertion into
the admin-email HTML, but the code escapes only the notes: for the admitted
booking `bk7` the HTML contains the name's raw `<b>x</b>` markup (its
escaped form appears nowhere), while the notes are escaped as required. -/
theorem adminEmailHtml_unescaped_name :
    validReserve body7 = true ∧
    containsSub (adminEmailHtml bk7) "<b>x</b>" = true ∧
    containsSub (adminEmailHtml bk7) "&lt;b&gt;x&lt;/b&gt;" = false ∧
    containsSub (adminEmailHtml bk7) "<i>y</i>" = false ∧
    containsSub (adminEmailHtml bk7) "&lt;i&gt;y&lt;/i&gt;" = true ∧
    escapeHtml3 "<b>x</b>" = "&lt;b&gt;x&lt;/b&gt;" := by
  exact ⟨by decide, by decide, by decide, by decide, by decide, by decide⟩

/-! ### Claims C1, C2, C4: `/api/reserve` -/

@[simp] theorem isInsertOp_insertRow (r : Reservation) :
    isInsertOp (.insertRow r) = true := rfl

@[simp] theorem isInsertOp_confirmOp (fx : ReserveFx) (i : String) :
    isInsertOp (confirmOp fx i) = false := by
  unfold confirmOp
  cases fx.confirmResult <;> rfl

@[simp] theorem isInsertOp_emailOp (fx : ReserveFx) (i : String) :
    isInsertOp (emailOp fx i) = false := by
  unfold emailOp
  cases fx.emailResult <;> rfl

/-- On a request passing all six validation checks, the reserve handler
reduces to the insert-and-notify tail. -/
theorem reserveHandler_valid (bodyOpt : Option ReserveBody) (id createdAt : String)
    (fx : ReserveFx) (hval : validReserve (bodyOpt.getD {}) = true) :
    reserveHandler bodyOpt id createdAt fx =
      match fx.insertResult with
      | some msg =>
        if containsSub (toLowerStr msg) "unique" || containsSub (toLowerStr msg) "constraint" then
          (.err 409 "already booked" none,
           [.insertRow (reservationRow (bodyOpt.getD {}) id createdAt)])
        else
          (.err 500 "db error" (some msg),
           [.insertRow (reservationRow (bodyOpt.getD {}) id createdAt)])
      | none =>
        (.ok id,
         [.insertRow (reservationRow (bodyOpt.getD {}) id createdAt), confirmOp fx id,
          emailOp fx id]) := by
  unfold validReserve at hval
  simp only [Bool.and_eq_true, decide_eq_true_eq] at hval
  obtain ⟨⟨⟨⟨⟨h1, h2⟩, h3⟩, h4⟩, h5⟩, h6⟩ := hval
  unfold reserveHandler
  rw [h1, h2, h6,
    if_neg (show ¬((jsTrim ((bodyOpt.getD {}).name.getD "")).length < 2) by omega),
    if_neg (show ¬((digitsOnly ((bodyOpt.getD {}).phone.getD "")).length < 9) by omega),
    if_neg (show ¬((jsTrim ((bodyOpt.getD {}).password.getD "")).length < 4) by omega)]
  rfl

/-- What C1 asserts of a validated reserve request. -/
def C1Concl (bodyOpt : Option ReserveBody) (id createdAt : String) (fx : ReserveFx) : Prop :=
  (((reserveHandler bodyOpt id createdAt fx).2.filter isInsertOp).length = 1) ∧
  ((reserveHandler bodyOpt id createdAt fx).2.head?
      = some (.insertRow (reservationRow (bodyOpt.getD {}) id createdAt))) ∧
  (∀ msg, fx.insertResult = some msg →
    (reserveHandler bodyOpt id createdAt fx).2
        = [.insertRow (reservationRow (bodyOpt.getD {}) id createdAt)] ∧
    ((containsSub (toLowerStr msg) "unique" || containsSub (toLowerStr msg) "constraint")
          = true →
      (reserveHandler bodyOpt id createdAt fx).1 = .err 409 "already booked" none) ∧
    ((containsSub (toLowerStr msg) "unique" || containsSub (toLowerStr msg) "constraint")
          = false →
      (reserveHandler bodyOpt id createdAt fx).1 = .err 500 "db error" (some msg)))

/-- C1: every validated `/api/reserve` request issues exactly one `INSERT`
(and it is the first store statement); if the store rejects it with a
message containing "unique" or "constraint" (lower-cased) the response is
409 "already booked", any other store error yields 500 carrying the
underlying message, and in either error case the insert is the only
statement issued — no conflict-check read and no rollback. -/
theorem reserve_insert_conflict_spec (bodyOpt : Option ReserveBody) (id createdAt : String)
    (fx : ReserveFx) (hval : validReserve (bodyOpt.getD {}) = true) :
    C1Concl bodyOpt id createdAt fx := by
  have hh := reserveHandler_valid bodyOpt id createdAt fx hval
  cases hins : fx.insertResult with
  | none =>
    rw [hins] at hh
    refine ⟨?_, ?_, ?_⟩
    · rw [hh]
      simp
    · rw [hh]
      rfl
    · intro msg hmsg
      rw [hins] at hmsg
      cases hmsg
  | some msg =>
    rw [hins] at hh
    have hh2 : reserveHandler bodyOpt id createdAt fx =
        if (containsSub (toLowerStr msg) "unique"
            || containsSub (toLowerStr msg) "constraint") = true then
          (ApiResp.err 409 "already booked" none,
           [DbOp.insertRow (reservationRow (bodyOpt.getD {}) id createdAt)])
        else
          (ApiResp.err 500 "db error" (some msg),
           [DbOp.insertRow (reservationRow (bodyOpt.getD {}) id createdAt)]) := hh
    cases hsn : containsSub (toLowerStr msg) "unique"
        || containsSub (toLowerStr msg) "constraint" with
    | true =>
      rw [hsn, if_pos rfl] at hh2
      refine ⟨by rw [hh2]; rfl, by rw [hh2]; rfl, ?_⟩
      intro msg2 hmsg2
      rw [hins] at hmsg2
      obtain rfl := Option.some_injective _ hmsg2
      exact ⟨by rw [hh2], fun _ => by rw [hh2], fun hc => absurd hsn (by rw [hc]; simp)⟩
    | false =>
      rw [hsn, if_neg (by simp)] at hh2
      refine ⟨by rw [hh2]; rfl, by rw [hh2]; rfl, ?_⟩
      intro msg2 hmsg2
      rw [hins] at hmsg2
      obtain rfl := Option.some_injective _ hmsg2
      exact ⟨by rw [hh2], fun hc => absurd hsn (by rw [hc]; simp), fun _ => by rw [hh2]⟩

/-- A valid reserve body shared by the reserve-handler witnesses. -/
def bodyRv : ReserveBody :=
  { date := some "2025-03-15", time := some "14:00", name := some "Kim",
    phone := some "010-1234-5678", password := some "1234" }

/-- Witness for C1 at a concrete valid request whose insert fails with a
constraint-violation message. -/
theorem reserve_insert_conflict_spec_witness :
    validReserve bodyRv = true ∧
    C1Concl (some bodyRv) "res-1" "2025-03-01T00:00:00.000Z"
      ⟨some "UNIQUE constraint failed: reservations.date, reservations.time",
       none, none, "t1", "t2"⟩ :=
  ⟨by decide,
   reserve_insert_conflict_spec (some bodyRv) "res-1" "2025-03-01T00:00:00.000Z"
     ⟨some "UNIQUE constraint failed: reservations.date, reservations.time",
      none, none, "t1", "t2"⟩ (by decide)⟩

/-- What C2 asserts of a validated reserve request whose insert succeeds. -/
def C2Concl (bodyOpt : Option ReserveBody) (id createdAt : String) (fx : ReserveFx) : Prop :=
  fx.insertResult = none →
    (reserveHandler bodyOpt id createdAt fx).1 = .ok id ∧
    (reserveHandler bodyOpt id createdAt fx).2
        = [.insertRow (reservationRow (bodyOpt.getD {}) id createdAt), confirmOp fx id,
           emailOp fx id] ∧
    (∀ e, fx.confirmResult = some e → confirmOp fx id = .notifyErr e id) ∧
    (fx.confirmResult = none → confirmOp fx id = .confirmOk fx.confirmTs id) ∧
    (∀ e, fx.emailResult = some e → emailOp fx id = .emailErr e id) ∧
    (fx.emailResult = none → emailOp fx id = .emailOk fx.emailTs id) ∧
    (∀ db0, (∀ x ∈ db0, x.id ≠ id) →
      findRow (applyOps db0 (reserveHandler bodyOpt id createdAt fx).2) id
        = some { reservationRow (bodyOpt.getD {}) id createdAt with
                  notifyConfirmAt := if fx.confirmResult.isNone then some fx.confirmTs else none
                  notifyLastError := fx.confirmResult
                  emailSentAt := if fx.emailResult.isNone then some fx.emailTs else none
                  emailLastError := fx.emailResult })

/-- C2: once the row is inserted, the response is success regardless of the
two notification outcomes; the confirmation statement precedes the email
statement, a confirmation failure does not prevent the email attempt, each
failure is recorded on the reservation's own error field (`notify_last_error`
for the confirmation, `email_last_error` for the email), and no failure is
propagated to the client. -/
theorem reserve_notification_isolation_spec (bodyOpt : Option ReserveBody)
    (id createdAt : String) (fx : ReserveFx)
    (hval : validReserve (bodyOpt.getD {}) = true) :
    C2Concl bodyOpt id createdAt fx := by
  intro hins
  have hh := reserveHandler_valid bodyOpt id createdAt fx hval
  rw [hins] at hh
  refine ⟨by rw [hh], by rw [hh], ?_, ?_, ?_, ?_, ?_⟩
  · intro e he
    unfold confirmOp
    rw [he]
  · intro he
    unfold confirmOp
    rw [he]
  · intro e he
    unfold emailOp
    rw [he]
  · intro he
    unfold emailOp
    rw [he]
  · intro db0 hfresh
    rw [hh]
    show findRow (applyOp (applyOp (db0 ++ [reservationRow (bodyOpt.getD {}) id createdAt])
      (confirmOp fx id)) (emailOp fx id)) id = _
    have hstep0 : findRow (db0 ++ [reservationRow (bodyOpt.getD {}) id createdAt]) id
        = some (reservationRow (bodyOpt.getD {}) id createdAt) :=
      findRow_append_fresh db0 _ fun x hx => hfresh x hx
    unfold confirmOp emailOp
    cases hc : fx.confirmResult with
    | none =>
      have hstep1 := findRow_updateRow_self _ id _ _
        (fun x => setConfirmOk_id fx.confirmTs x) hstep0
      cases he : fx.emailResult with
      | none =>
        exact findRow_updateRow_self _ id _ _ (fun x => setEmailOk_id fx.emailTs x) hstep1
      | some e2 =>
        exact findRow_updateRow_self _ id _ _ (fun x => setEmailErr_id e2 x) hstep1
    | some e1 =>
      have hstep1 := findRow_updateRow_self _ id _ _
        (fun x => setNotifyErr_id e1 x) hstep0
      cases he : fx.emailResult with
      | none =>
        exact findRow_updateRow_self _ id _ _ (fun x => setEmailOk_id fx.emailTs x) hstep1
      | some e2 =>
        exact findRow_updateRow_self _ id _ _ (fun x => setEmailErr_id e2 x) hstep1

/-- Witness for C2 at a concrete admitted booking whose confirmation and
email sends both fail. -/
theorem reserve_notification_isolation_spec_witness :
    validReserve bodyRv = true ∧
    C2Concl (some bodyRv) "res-2" "2025-03-01T00:00:00.000Z"
      ⟨none, some "ALIGO send HTTP 500", some "RESEND send failed HTTP 500: boom", "t1", "t2"⟩ :=
  ⟨by decide,
   reserve_notification_isolation_spec (some bodyRv) "res-2" "2025-03-01T00:00:00.000Z"
     ⟨none, some "ALIGO send HTTP 500", some "RESEND send failed HTTP 500: boom", "t1", "t2"⟩
     (by decide)⟩

/-- What C4 asserts: the six checks run in this order with fail-fast
semantics, each rejection is a distinct 400 reason, and a rejected request
issues no store statement. -/
def C4Concl (bodyOpt : Option ReserveBody) (id createdAt : String) (fx : ReserveFx) : Prop :=
  (isYMDo (bodyOpt.getD {}).date = false →
    reserveHandler bodyOpt id createdAt fx = (.err 400 "invalid date" none, [])) ∧
  (isYMDo (bodyOpt.getD {}).date = true → isHMo (bodyOpt.getD {}).time = false →
    reserveHandler bodyOpt id createdAt fx = (.err 400 "invalid time" none, [])) ∧
  (isYMDo (bodyOpt.getD {}).date = true → isHMo (bodyOpt.getD {}).time = true →
    (jsTrim ((bodyOpt.getD {}).name.getD "")).length < 2 →
    reserveHandler bodyOpt id createdAt fx = (.err 400 "name required" none, [])) ∧
  (isYMDo (bodyOpt.getD {}).date = true → isHMo (bodyOpt.getD {}).time = true →
    ¬((jsTrim ((bodyOpt.getD {}).name.getD "")).length < 2) →
    (digitsOnly ((bodyOpt.getD {}).phone.getD "")).length < 9 →
    reserveHandler bodyOpt id createdAt fx = (.err 400 "phone required" none, [])) ∧
  (isYMDo (bodyOpt.getD {}).date = true → isHMo (bodyOpt.getD {}).time = true →
    ¬((jsTrim ((bodyOpt.getD {}).name.getD "")).length < 2) →
    ¬((digitsOnly ((bodyOpt.getD {}).phone.getD "")).length < 9) →
    (jsTrim ((bodyOpt.getD {}).password.getD "")).length < 4 →
    reserveHandler bodyOpt id createdAt fx = (.err 400 "password(>=4) required" none, [])) ∧
  (isYMDo (bodyOpt.getD {}).date = true → isHMo (bodyOpt.getD {}).time = true →
    ¬((jsTrim ((bodyOpt.getD {}).name.getD "")).length < 2) →
    ¬((digitsOnly ((bodyOpt.getD {}).phone.getD "")).length < 9) →
    ¬((jsTrim ((bodyOpt.getD {}).password.getD "")).length < 4) →
    (allowedTimesForDate ((bodyOpt.getD {}).date.getD "")).contains
        ((bodyOpt.getD {}).time.getD "") = false →
    reserveHandler bodyOpt id createdAt fx
      = (.err 400 "time not allowed for that date" none, [])) ∧
  (["invalid date", "invalid time", "name required", "phone required",
    "password(>=4) required", "time not allowed for that date"] : List String).Nodup

/-- C4: the `/api/reserve` validation sequence runs in the order date
syntax, time syntax, name length ≥ 2, phone digits ≥ 9, password length ≥
4, slot membership; the first failing check wins, each has its own 400
reason (all six reasons distinct), and no store statement is issued. -/
theorem reserve_validation_order_spec (bodyOpt : Option ReserveBody) (id createdAt : String)
    (fx : ReserveFx) : C4Concl bodyOpt id createdAt fx := by
  refine ⟨?_, ?_, ?_, ?_, ?_, ?_, by decide⟩
  · intro h1
    unfold reserveHandler
    rw [h1]
    rfl
  · intro h1 h2
    unfold reserveHandler
    rw [h1, h2]
    rfl
  · intro h1 h2 h3
    unfold reserveHandler
    rw [h1, h2, if_pos h3]
    rfl
  · intro h1 h2 h3 h4
    unfold reserveHandler
    rw [h1, h2, if_neg h3, if_pos h4]
    rfl
  · intro h1 h2 h3 h4 h5
    unfold reserveHandler
    rw [h1, h2, if_neg h3, if_neg h4, if_pos h5]
    rfl
  · intro h1 h2 h3 h4 h5 h6
    unfold reserveHandler
    rw [h1, h2, h6, if_neg h3, if_neg h4, if_neg h5]
    rfl

/-- Witness for C4: a concrete request with a too-short name is rejected by
the name check with no store statement. -/
theorem reserve_validation_order_spec_witness :
    reserveHandler
        (some { date := some "2025-03-15", time := some "14:00", name := some "K",
                phone := some "010-1234-5678", password := some "1234" })
        "res-4" "t0" ⟨none, none, none, "t1", "t2"⟩
      = (.err 400 "name required" none, []) :=
  (reserve_validation_order_spec
      (some { date := some "2025-03-15", time := some "14:00", name := some "K",
              phone := some "010-1234-5678", password := some "1234" })
      "res-4" "t0" ⟨none, none, none, "t1", "t2"⟩).2.2.1 (by decide) (by decide) (by decide)

/-! ### Claim C5: the reminder scheduler -/

/-- What C5 asserts of a scheduler tick at instant `nowMin` (minutes). -/
def C5Concl (db : List Reservation) (nowMin : Nat)
    (outcome : ReminderKind → String → Option String) (ts : String) : Prop :=
  (selectBatch db (ymdOfDayNum ((nowMin + 540) / 1440 + 1)) .d1).length ≤ 200 ∧
  (selectBatch (sendBatch db (ymdOfDayNum ((nowMin + 540) / 1440 + 1)) .d1 (outcome .d1) ts).1
      (ymdOfDayNum ((nowMin + 540) / 1440)) .d0).length ≤ 200 ∧
  (∀ date kind, selectBatch db date kind
      = (db.filter fun r =>
          r.status == "booked" && r.date == date && (markOf kind r).isNone).take 200) ∧
  (runReminders db nowMin outcome ts).2
      = (selectBatch db (ymdOfDayNum ((nowMin + 540) / 1440 + 1)) .d1).map
          (fun r => SendAttempt.mk .d1 r.id (outcome .d1 r.id).isNone)
        ++ (selectBatch (sendBatch db (ymdOfDayNum ((nowMin + 540) / 1440 + 1)) .d1
              (outcome .d1) ts).1 (ymdOfDayNum ((nowMin + 540) / 1440)) .d0).map
            (fun r => SendAttempt.mk .d0 r.id (outcome .d0 r.id).isNone) ∧
  ((db.map fun r => r.id).Nodup →
    (∀ r ∈ selectBatch db (ymdOfDayNum ((nowMin + 540) / 1440 + 1)) .d1,
      findRow (sendBatch db (ymdOfDayNum ((nowMin + 540) / 1440 + 1)) .d1
          (outcome .d1) ts).1 r.id
        = some (outcomeUpdate .d1 (outcome .d1) ts r)) ∧
    (∀ r ∈ selectBatch (sendBatch db (ymdOfDayNum ((nowMin + 540) / 1440 + 1)) .d1
        (outcome .d1) ts).1 (ymdOfDayNum ((nowMin + 540) / 1440)) .d0,
      findRow (runReminders db nowMin outcome ts).1 r.id
        = some (outcomeUpdate .d0 (outcome .d0) ts r))) ∧
  (∀ kd2 : ReminderKind, ∀ ts2 : String, ∀ r : Reservation,
    markOf kd2 (setMarkOk kd2 ts2 r) = some ts2 ∧
    (setMarkOk kd2 ts2 r).notifyLastError = none) ∧
  (∀ e : String, ∀ r : Reservation,
    (setNotifyErr e r).notifyLastError = some e ∧
    (setNotifyErr e r).status = r.status ∧ (setNotifyErr e r).date = r.date ∧
    markOf .d1 (setNotifyErr e r) = markOf .d1 r ∧
    markOf .d0 (setNotifyErr e r) = markOf .d0 r)

/-- C5: a tick computes today as the calendar date of now+9h (read in UTC)
and tomorrow as the next calendar day; it selects at most 200 booked rows
per batch whose mark column is NULL, runs the D-1 (tomorrow) batch before
the D-day (today) batch, processes each selected row exactly once in order
(a failure never aborts the rest), stamps the mark and clears the error on
success, and on failure records the error while leaving status, date and
both mark columns untouched, so the row stays eligible for the next tick. -/
theorem runReminders_spec (db : List Reservation) (nowMin : Nat)
    (outcome : ReminderKind → String → Option String) (ts : String) :
    C5Concl db nowMin outcome ts := by
  refine ⟨List.length_take_le _ _, List.length_take_le _ _, fun date kind => rfl, ?_, ?_,
    ?_, ?_⟩
  · rw [show (runReminders db nowMin outcome ts).2
        = (sendBatch db (ymdOfDayNum ((nowMin + 540) / 1440 + 1)) .d1 (outcome .d1) ts).2
          ++ (sendBatch (sendBatch db (ymdOfDayNum ((nowMin + 540) / 1440 + 1)) .d1
              (outcome .d1) ts).1 (ymdOfDayNum ((nowMin + 540) / 1440)) .d0
              (outcome .d0) ts).2 from rfl]
    rw [sendBatch_trace, sendBatch_trace]
  · intro hnd
    refine ⟨sendBatch_row_spec db _ .d1 (outcome .d1) ts hnd, ?_⟩
    intro r hr
    have hnd1 : ((sendBatch db (ymdOfDayNum ((nowMin + 540) / 1440 + 1)) .d1
        (outcome .d1) ts).1.map fun r => r.id).Nodup := by
      rw [sendBatch_ids]
      exact hnd
    exact sendBatch_row_spec _ (ymdOfDayNum ((nowMin + 540) / 1440)) .d0 (outcome .d0) ts
      hnd1 r hr
  · intro k2 ts2 r
    cases k2 <;> exact ⟨rfl, rfl⟩
  · intro e r
    exact ⟨rfl, rfl, rfl, rfl, rfl⟩

/-- The store contents of the C5 witness: one booking tomorrow (in KST,
relative to the witness instant), one today. -/
def dbC5 : List Reservation :=
  [{ id := "r1", createdAt := "t", date := "2025-03-15", time := "14:00", name := "Kim",
     phone := "01012345678", password := "1234", status := "booked" },
   { id := "r2", createdAt := "t", date := "2025-03-14", time := "13:00", name := "Lee",
     phone := "01087654321", password := "5678", status := "booked" }]

/-- The C5 witness instant: 2025-03-14 01:00 UTC, i.e. 10:00 KST. -/
def nowC5 : Nat := dnum 2025 3 14 * 1440 + 60

/-- The C5 witness outcomes: the send for `r1` fails, the send for `r2`
succeeds. -/
def outcomeC5 : ReminderKind → String → Option String :=
  fun _ i => if i == "r1" then some "ALIGO send HTTP 500" else none

/-- Witness for C5 at a concrete store, instant and outcome assignment. -/
theorem runReminders_spec_witness : C5Concl dbC5 nowC5 outcomeC5 "2025-03-14T01:10:00.000Z" :=
  runReminders_spec dbC5 nowC5 outcomeC5 "2025-03-14T01:10:00.000Z"

/-! ### Claim C6: the notification error fields -/

/-- The effect outcomes of the C6 run: insert succeeds, the confirmation
send fails with "A", then the email send fails with "B". -/
def fx6 : ReserveFx := ⟨none, some "A", some "B", "t1", "t2"⟩

/-- C6 counterexample: run the reserve handler on a valid booking where the
confirmation fails with "A" and then the email fails with "B", and apply
the issued statements to an empty store.  The claim says both failures
write one shared last-error field, the later overwriting the earlier — the
resulting row would hold "B" in that field.  Instead the row holds
`notify_last_error = "A"` and `email_last_error = "B"`: the email failure
went to its own column and did not overwrite the confirmation's error. -/
theorem sharedErrorField_counterexample :
    (findRow (applyOps [] (reserveHandler (some bodyRv) "res-6" "t0" fx6).2) "res-6").map
        (fun r => (r.notifyLastError, r.emailLastError))
      = some (some "A", some "B") ∧ some "A" ≠ some "B" := by
  exact ⟨by decide, by decide⟩

/-- C6 amended: statement of which error field each channel writes. -/
theorem perChannelErrorFields_spec (r : Reservation) (e ts2 : String) (k : ReminderKind)
    (fx : ReserveFx) (i : String) (outcome : String → Option String)
    (acc : List Reservation × List SendAttempt) :
    ((setNotifyErr e r).notifyLastError = some e ∧
      (setNotifyErr e r).emailLastError = r.emailLastError) ∧
    ((setConfirmOk ts2 r).notifyLastError = none ∧
      (setConfirmOk ts2 r).emailLastError = r.emailLastError) ∧
    ((setMarkOk k ts2 r).notifyLastError = none ∧
      (setMarkOk k ts2 r).emailLastError = r.emailLastError) ∧
    ((setEmailErr e r).emailLastError = some e ∧
      (setEmailErr e r).notifyLastError = r.notifyLastError) ∧
    ((setEmailOk ts2 r).emailLastError = none ∧
      (setEmailOk ts2 r).notifyLastError = r.notifyLastError) ∧
    (fx.confirmResult = some e → confirmOp fx i = .notifyErr e i) ∧
    (fx.emailResult = some e → emailOp fx i = .emailErr e i) ∧
    (outcome r.id = some e →
      (batchStep k outcome ts2 acc r).1 = updateRow acc.1 r.id (setNotifyErr e)) := by
  refine ⟨⟨rfl, rfl⟩, ⟨rfl, rfl⟩, ⟨?_, ?_⟩, ⟨rfl, rfl⟩, ⟨rfl, rfl⟩, ?_, ?_, ?_⟩
  · cases k <;> rfl
  · cases k <;> rfl
  · intro h
    unfold confirmOp
    rw [h]
  · intro h
    unfold emailOp
    rw [h]
  · intro h
    unfold batchStep
    rw [h]

/-- A plain booked row used by the C6 witness. -/
def row6 : Reservation :=
  { id := "r6", createdAt := "t", date := "2025-03-15", time := "14:00", name := "Kim",
    phone := "01012345678", password := "1234", status := "booked" }

/-- Witness for C6 (amended): concrete failure outcomes route to the
per-channel error columns. -/
theorem perChannelErrorFields_spec_witness :
    confirmOp fx6 "r6" = .notifyErr "A" "r6" ∧
    emailOp fx6 "r6" = .emailErr "B" "r6" ∧
    (batchStep .d1 (fun _ => some "boom") "t9" ([row6], []) row6).1
      = updateRow [row6] row6.id (setNotifyErr "boom") :=
  ⟨(perChannelErrorFields_spec row6 "A" "t9" .d1 fx6 "r6" (fun _ => some "boom")
      ([row6], [])).2.2.2.2.2.1 rfl,
   (perChannelErrorFields_spec row6 "B" "t9" .d1 fx6 "r6" (fun _ => some "boom")
      ([row6], [])).2.2.2.2.2.2.1 rfl,
   (perChannelErrorFields_spec row6 "boom" "t9" .d1 fx6 "r6" (fun _ => some "boom")
      ([row6], [])).2.2.2.2.2.2.2 rfl⟩

/-! ### Claim C8: the calendar attachment -/

theorem dnum_ge (y m d : Nat) : 100 ≤ dnum y m d := by
  simp only [dnum]
  by_cases hm : m ≤ 2 <;> simp only [hm, if_true, if_false, ite_true, ite_false] <;> omega

theorem ne_of_data_head (a b : String) (h : a.data.head? ≠ b.data.head?) : a ≠ b :=
  fun he => h (he ▸ rfl)

theorem head_append (p s : String) (c : Char) (hp : p.data.head? = some c) :
    (p ++ s).data.head? = some c := by
  rw [String.data_append]
  cases hd : p.data with
  | nil => rw [hd] at hp; exact absurd hp (by simp)
  | cons x xs =>
    rw [hd] at hp
    rw [List.cons_append]
    exact hp

/-- Among the fifteen lines of the calendar document, `BEGIN:VEVENT` occurs
exactly once, for every argument record. -/
theorem icsLines_count_begin (nowMin : Nat) (args : ICSArgs) :
    (icsLines nowMin args).count "BEGIN:VEVENT" = 1 := by
  have h1 : ("UID:" ++ args.uid) ≠ "BEGIN:VEVENT" :=
    ne_of_data_head _ _ (by rw [head_append "UID:" args.uid 'U' rfl]; decide)
  have h2 : ("DTSTAMP:" ++ toICSStampUTC nowMin) ≠ "BEGIN:VEVENT" :=
    ne_of_data_head _ _ (by rw [head_append "DTSTAMP:" (toICSStampUTC nowMin) 'D' rfl]; decide)
  have h3 : ("DTSTART:" ++ args.startLocal) ≠ "BEGIN:VEVENT" :=
    ne_of_data_head _ _ (by rw [head_append "DTSTART:" args.startLocal 'D' rfl]; decide)
  have h4 : ("DTEND:" ++ args.endLocal) ≠ "BEGIN:VEVENT" :=
    ne_of_data_head _ _ (by rw [head_append "DTEND:" args.endLocal 'D' rfl]; decide)
  have h5 : ("SUMMARY:" ++ escapeICS args.title) ≠ "BEGIN:VEVENT" :=
    ne_of_data_head _ _ (by rw [head_append "SUMMARY:" (escapeICS args.title) 'S' rfl]; decide)
  have h6 : ("LOCATION:" ++ escapeICS args.location) ≠ "BEGIN:VEVENT" :=
    ne_of_data_head _ _ (by rw [head_append "LOCATION:" (escapeICS args.location) 'L' rfl]; decide)
  have h7 : ("DESCRIPTION:" ++ escapeICS args.description) ≠ "BEGIN:VEVENT" :=
    ne_of_data_head _ _
      (by rw [head_append "DESCRIPTION:" (escapeICS args.description) 'D' rfl]; decide)
  simp +decide [icsLines, List.count_cons, h1, h2, h3, h4, h5, h6, h7]

/-- `END:VEVENT` likewise occurs exactly once. -/
theorem icsLines_count_end (nowMin : Nat) (args : ICSArgs) :
    (icsLines nowMin args).count "END:VEVENT" = 1 := by
  have h1 : ("UID:" ++ args.uid) ≠ "END:VEVENT" :=
    ne_of_data_head _ _ (by rw [head_append "UID:" args.uid 'U' rfl]; decide)
  have h2 : ("DTSTAMP:" ++ toICSStampUTC nowMin) ≠ "END:VEVENT" :=
    ne_of_data_head _ _ (by rw [head_append "DTSTAMP:" (toICSStampUTC nowMin) 'D' rfl]; decide)
  have h3 : ("DTSTART:" ++ args.startLocal) ≠ "END:VEVENT" :=
    ne_of_data_head _ _ (by rw [head_append "DTSTART:" args.startLocal 'D' rfl]; decide)
  have h4 : ("DTEND:" ++ args.endLocal) ≠ "END:VEVENT" :=
    ne_of_data_head _ _ (by rw [head_append "DTEND:" args.endLocal 'D' rfl]; decide)
  have h5 : ("SUMMARY:" ++ escapeICS args.title) ≠ "END:VEVENT" :=
    ne_of_data_head _ _ (by rw [head_append "SUMMARY:" (escapeICS args.title) 'S' rfl]; decide)
  have h6 : ("LOCATION:" ++ escapeICS args.location) ≠ "END:VEVENT" :=
    ne_of_data_head _ _ (by rw [head_append "LOCATION:" (escapeICS args.location) 'L' rfl]; decide)
  have h7 : ("DESCRIPTION:" ++ escapeICS args.description) ≠ "END:VEVENT" :=
    ne_of_data_head _ _
      (by rw [head_append "DESCRIPTION:" (escapeICS args.description) 'D' rfl]; decide)
  simp +decide [icsLines, List.count_cons, h1, h2, h3, h4, h5, h6, h7]

/-- What C8 asserts of a booking with date components `(y, m, d)` and time
components `(hh, mi)`. -/
def C8Concl (b : BookingInfo) (nowMin y m d hh mi : Nat) : Prop :=
  reservationICS nowMin b = "\r\n".intercalate (icsLines nowMin (reservationICSArgs b)) ∧
  (icsLines nowMin (reservationICSArgs b)).count "BEGIN:VEVENT" = 1 ∧
  (icsLines nowMin (reservationICSArgs b)).count "END:VEVENT" = 1 ∧
  ("UID:" ++ b.id) ∈ icsLines nowMin (reservationICSArgs b) ∧
  startInstant b.date b.time = dnum y m d * 1440 + hh * 60 + mi - 540 ∧
  startInstant b.date b.time + 540 = dnum y m d * 1440 + hh * 60 + mi ∧
  ("DTSTART:" ++ toLocalICS (startInstant b.date b.time))
      ∈ icsLines nowMin (reservationICSArgs b) ∧
  ("DTEND:" ++ toLocalICS (startInstant b.date b.time + 60))
      ∈ icsLines nowMin (reservationICSArgs b) ∧
  ("LOCATION:" ++ escapeICS showroomLocation) ∈ icsLines nowMin (reservationICSArgs b) ∧
  ("SUMMARY:" ++ escapeICS ("네토그린 쇼룸 방문 (" ++ b.name ++ ")"))
      ∈ icsLines nowMin (reservationICSArgs b) ∧
  ("DESCRIPTION:" ++ escapeICS ("예약자: " ++ b.name ++ "\n전화: " ++ b.phone
      ++ "\n(메타 전용 예약)\n")) ∈ icsLines nowMin (reservationICSArgs b) ∧
  escapeICS "a,b;c\\d\ne" = "a\\,b\\;c\\\\d\\ne"

/-- C8: the attached calendar document has exactly one VEVENT; its UID is
the reservation id; its DTSTART renders the instant obtained by
interpreting the booking's date and time at the fixed UTC+9 offset (the
instant plus 540 minutes reads back the booking's civil date and time);
DTEND is exactly one hour later; LOCATION is the showroom's fixed location
text; and SUMMARY, LOCATION and DESCRIPTION all pass through the ICS
escaping of backslash, newline, comma and semicolon. -/
theorem reservationICS_spec (b : BookingInfo) (nowMin y m d hh mi : Nat)
    (hd : parseValidYMD b.date = some (y, m, d)) (ht : parseHM b.time = some (hh, mi)) :
    C8Concl b nowMin y m d hh mi := by
  have hstart : startInstant b.date b.time = dnum y m d * 1440 + hh * 60 + mi - 540 := by
    unfold startInstant
    rw [hd, ht]
  refine ⟨rfl, icsLines_count_begin nowMin (reservationICSArgs b),
    icsLines_count_end nowMin (reservationICSArgs b), ?_, hstart, ?_, ?_, ?_, ?_, ?_, ?_,
    by decide⟩
  · simp [icsLines, reservationICSArgs]
  · rw [hstart]
    have h100 := dnum_ge y m d
    omega
  · simp [icsLines, reservationICSArgs]
  · simp [icsLines, reservationICSArgs]
  · simp [icsLines, reservationICSArgs]
  · simp [icsLines, reservationICSArgs]
  · simp [icsLines, reservationICSArgs]

/-- The C8 witness booking (its name exercises the comma escaping). -/
def bk8 : BookingInfo :=
  { id := "res-8", date := "2025-03-15", time := "14:00", name := "Kim, Lee",
    phone := "01012345678", landAddress := "addr", notes := "memo" }

/-- Witness for C8 at a concrete booking. -/
theorem reservationICS_spec_witness :
    parseValidYMD "2025-03-15" = some (2025, 3, 15) ∧ parseHM "14:00" = some (14, 0) ∧
    C8Concl bk8 1000000 2025 3 15 14 0 :=
  ⟨by decide, by decide,
   reservationICS_spec bk8 1000000 2025 3 15 14 0 (by decide) (by decide)⟩

end Showroom
